import Mathlib

/-!
Verification of the reverse-proxy forwarder route
(frontend/app/api/backend/[...path]/route.ts).

The route exports two async handlers, GET and POST.  Both compute

  url = BACKEND ++ "/" ++ path.join "/" ++ search

issue a single fetch to that url, and relay the upstream status and body,
attaching a single Content-Type header.  The module-level constant

  BACKEND = process.env.NEXT_PUBLIC_BACKEND_URL || http-localhost-8000

is embedded as an explicit parameter, and fetch as a monadic oracle so the
same definition can be run with a logging monad (to count issued
requests), with Id (to compute responses), and with Except (to study
error propagation).  JavaScript disjunction on strings treats the empty
string as falsy, so `x || d` is embedded as jsOr, which returns d both
when x is null/undefined and when x is the empty string.  The Fetch API
Headers.get is case-insensitive, embedded by headersGet.
-/

/-- A header list as carried by a Fetch API Headers object:
an association list of name/value pairs. -/
abbrev HeaderList : Type := List (String × String)

/-- ASCII lowercasing of a header name, written on the underlying
character list so that it evaluates by reduction. -/
def lowerStr (s : String) : String :=
  String.mk (s.data.map Char.toLower)

/-- Fetch API Headers.get: case-insensitive lookup of the first header
with the given name; null (none) when absent. -/
def headersGet (hs : HeaderList) (name : String) : Option String :=
  (hs.find? (fun p => lowerStr p.1 == lowerStr name)).map (fun p => p.2)

/-- JavaScript `x || d` on a nullable string: d when x is null/undefined
or the empty string (both are falsy), otherwise x itself. -/
def jsOr (x : Option String) (d : String) : String :=
  match x with
  | none => d
  | some s => if s = "" then d else s

/-- Line 4 of route.ts: `const BACKEND = process.env.NEXT_PUBLIC_BACKEND_URL
|| http-localhost-8000`, evaluated once at module load from the ambient
environment (here the environment value is an explicit Option argument). -/
def BACKEND (env : Option String) : String :=
  jsOr env "http://localhost:8000"

/-- The inbound request as the handlers see it: the wildcard path capture
`params.path`, the raw query string `req.nextUrl.search` (empty or
starting with a question mark), the inbound headers, and the inbound body
(`req.text()`). -/
structure InboundRequest where
  path    : List String
  search  : String
  headers : HeaderList
  body    : String
deriving DecidableEq

/-- The argument of a fetch call: method, absolute url, headers passed in
the init object (empty when no init is given), and optional body. -/
structure OutboundRequest where
  method  : String
  url     : String
  headers : HeaderList
  body    : Option String
deriving DecidableEq

/-- The upstream response as the handlers consume it: `r.status`,
`r.headers`, and the text body `r.text()`. -/
structure UpstreamResponse where
  status  : Nat
  headers : HeaderList
  body    : String
deriving DecidableEq

/-- The Response returned to the inbound caller: status, the headers
given in the init object, and the text body. -/
structure InboundResponse where
  status  : Nat
  headers : HeaderList
  body    : String
deriving DecidableEq

/-- Lines 7 and 14 of route.ts:
url = `${BACKEND}/${params.path.join('/')}${req.nextUrl.search}`. -/
def targetUrl (base : String) (req : InboundRequest) : String :=
  base ++ "/" ++ String.intercalate "/" req.path ++ req.search

/-- The fetch argument on line 8: `fetch(url)` with no init object, hence
method GET, no headers, no body. -/
def getUpstream (base : String) (req : InboundRequest) : OutboundRequest :=
  { method := "GET", url := targetUrl base req, headers := [], body := none }

/-- The fetch argument on line 16: method POST, a single Content-Type
header taken from the inbound request (default application/json), and the
inbound body forwarded verbatim. -/
def postUpstream (base : String) (req : InboundRequest) : OutboundRequest :=
  { method := "POST"
    url := targetUrl base req
    headers := [("Content-Type",
      jsOr (headersGet req.headers "Content-Type") "application/json")]
    body := some req.body }

/-- Lines 10 and 18 of route.ts (identical in both handlers):
`new Response(text, { status: r.status, headers: { 'Content-Type':
r.headers.get('Content-Type') || 'application/json' } })`. -/
def relayResponse (r : UpstreamResponse) : InboundResponse :=
  { status := r.status
    headers := [("Content-Type",
      jsOr (headersGet r.headers "Content-Type") "application/json")]
    body := r.body }

/-- Lines 6 to 11 of route.ts: the GET handler.  It fetches the target
url once with no init object and relays the upstream response. -/
def GET {m : Type → Type} [Monad m]
    (fetch : OutboundRequest → m UpstreamResponse)
    (base : String) (req : InboundRequest) : m InboundResponse := do
  let r ← fetch (getUpstream base req)
  pure (relayResponse r)

/-- Lines 13 to 19 of route.ts: the POST handler.  It reads the inbound
body, fetches the target url once with method POST, the derived
Content-Type header and that body, and relays the upstream response. -/
def POST {m : Type → Type} [Monad m]
    (fetch : OutboundRequest → m UpstreamResponse)
    (base : String) (req : InboundRequest) : m InboundResponse := do
  let r ← fetch (postUpstream base req)
  pure (relayResponse r)

/-- A fetch oracle that records every request it receives in a state list
and answers each with the fixed upstream response r: running a handler
with this oracle computes the exact list of upstream requests issued. -/
def loggingFetch (r : UpstreamResponse) :
    OutboundRequest → StateM (List OutboundRequest) UpstreamResponse :=
  fun o => do
    modify (fun l => l ++ [o])
    pure r

/-- The list of upstream requests the GET handler issues on a given
inbound request, observed through the logging oracle. -/
def getRequestLog (base : String) (req : InboundRequest)
    (r : UpstreamResponse) : List OutboundRequest :=
  ((GET (loggingFetch r) base req).run []).2

/-- The list of upstream requests the POST handler issues on a given
inbound request, observed through the logging oracle. -/
def postRequestLog (base : String) (req : InboundRequest)
    (r : UpstreamResponse) : List OutboundRequest :=
  ((POST (loggingFetch r) base req).run []).2

/-- The Content-Type header the POST handler attaches to the outbound
upstream request, as a lookup on the outbound header list. -/
theorem postUpstream_contentType (base : String) (req : InboundRequest) :
    headersGet (postUpstream base req).headers "Content-Type"
      = some (jsOr (headersGet req.headers "Content-Type") "application/json") := rfl

/-- The Content-Type header both handlers attach to the relayed response,
as a lookup on the relayed header list. -/
theorem relayResponse_contentType (r : UpstreamResponse) :
    headersGet (relayResponse r).headers "Content-Type"
      = some (jsOr (headersGet r.headers "Content-Type") "application/json") := rfl

/-- Claim C1: every inbound GET request causes exactly one upstream
request, whose method is GET, whose body is absent, and whose url is the
base followed by a slash, the segments joined by slashes, and the raw
query string; in particular for base http://example.test, segments
[foo, bar] and empty query the url is exactly http://example.test/foo/bar. -/
theorem claim_c1_get_single_upstream (base : String) (req : InboundRequest)
    (r : UpstreamResponse) :
    getRequestLog base req r = [getUpstream base req] ∧
    (getUpstream base req).method = "GET" ∧
    (getUpstream base req).body = none ∧
    (getUpstream base req).url
      = base ++ "/" ++ String.intercalate "/" req.path ++ req.search ∧
    getRequestLog "http://example.test" ⟨["foo", "bar"], "", [], ""⟩ ⟨200, [], "ok"⟩ =
      [{ method := "GET", url := "http://example.test/foo/bar",
         headers := [], body := none }] :=
  ⟨rfl, rfl, rfl, rfl, by decide⟩

/-- Claim C2: for GET and POST alike, the status and the body of the
response returned to the inbound caller equal the status and the body of
the upstream response, whatever that status is. -/
theorem claim_c2_status_body_relayed {ε : Type}
    (f : OutboundRequest → Except ε UpstreamResponse)
    (base : String) (req : InboundRequest) (rg rp : UpstreamResponse)
    (hg : f (getUpstream base req) = Except.ok rg)
    (hp : f (postUpstream base req) = Except.ok rp) :
    (∃ resp : InboundResponse, GET f base req = Except.ok resp ∧
      resp.status = rg.status ∧ resp.body = rg.body) ∧
    (∃ resp : InboundResponse, POST f base req = Except.ok resp ∧
      resp.status = rp.status ∧ resp.body = rp.body) := by
  refine ⟨⟨relayResponse rg, ?_, rfl, rfl⟩, ⟨relayResponse rp, ?_, rfl, rfl⟩⟩
  · simp [GET, hg]
  · simp [POST, hp]

/-- Witness for claim C2 at a concrete request and upstream response. -/
theorem claim_c2_witness :
    (∃ resp : InboundResponse,
      GET (m := Except Unit) (fun _ => Except.ok ⟨200, [], "ok"⟩)
          "http://b" ⟨["a"], "", [], "x"⟩ = Except.ok resp ∧
        resp.status = 200 ∧ resp.body = "ok") ∧
    (∃ resp : InboundResponse,
      POST (m := Except Unit) (fun _ => Except.ok ⟨200, [], "ok"⟩)
          "http://b" ⟨["a"], "", [], "x"⟩ = Except.ok resp ∧
        resp.status = 200 ∧ resp.body = "ok") :=
  claim_c2_status_body_relayed (fun _ => Except.ok ⟨200, [], "ok"⟩)
    "http://b" ⟨["a"], "", [], "x"⟩ ⟨200, [], "ok"⟩ ⟨200, [], "ok"⟩ rfl rfl

/-- Counterexample to claim C3: an inbound request carrying the header
X-Custom: v, which appears on neither the GET nor the POST outbound
upstream request, so inbound headers are not replayed. -/
theorem claim_c3_counterexample :
    ("X-Custom", "v") ∈ (⟨["a"], "", [("X-Custom", "v")], ""⟩ : InboundRequest).headers ∧
    ("X-Custom", "v") ∉
      (getUpstream "http://b" ⟨["a"], "", [("X-Custom", "v")], ""⟩).headers ∧
    ("X-Custom", "v") ∉
      (postUpstream "http://b" ⟨["a"], "", [("X-Custom", "v")], ""⟩).headers := by
  decide

/-- Claim C3 as amended: the outbound upstream request does not replay the
inbound headers; the GET upstream request carries no headers at all, and
the POST upstream request carries exactly the single Content-Type header
derived from the inbound request. -/
theorem claim_c3_amended (base : String) (req : InboundRequest) :
    (getUpstream base req).headers = [] ∧
    (postUpstream base req).headers =
      [("Content-Type",
        jsOr (headersGet req.headers "Content-Type") "application/json")] :=
  ⟨rfl, rfl⟩

/-- Claim C4: the POST handler issues exactly one upstream request and its
body equals the inbound request body verbatim. -/
theorem claim_c4_post_body_verbatim (base : String) (req : InboundRequest)
    (r : UpstreamResponse) :
    postRequestLog base req r = [postUpstream base req] ∧
    (postUpstream base req).body = some req.body :=
  ⟨rfl, rfl⟩

/-- Counterexample to claim C5: an inbound request whose Content-Type
header is present with the empty value; the outbound Content-Type is
application/json rather than the inbound (empty) value, because the
JavaScript disjunction treats the empty string as falsy. -/
theorem claim_c5_counterexample :
    headersGet (⟨["a"], "", [("Content-Type", "")], ""⟩ : InboundRequest).headers
        "Content-Type" = some "" ∧
    headersGet (postUpstream "http://b"
        ⟨["a"], "", [("Content-Type", "")], ""⟩).headers "Content-Type"
      = some "application/json" ∧
    ("application/json" : String) ≠ "" := by
  decide

/-- Claim C5 as amended: the outbound Content-Type for POST equals the
inbound Content-Type when that header is present with a non-empty value,
and equals application/json both when the header is absent and when it is
present with the empty value. -/
theorem claim_c5_amended (base : String) (req : InboundRequest) :
    headersGet (postUpstream base req).headers "Content-Type"
      = some (jsOr (headersGet req.headers "Content-Type") "application/json") ∧
    (∀ ct : String, headersGet req.headers "Content-Type" = some ct → ct ≠ "" →
      headersGet (postUpstream base req).headers "Content-Type" = some ct) ∧
    (headersGet req.headers "Content-Type" = none →
      headersGet (postUpstream base req).headers "Content-Type"
        = some "application/json") := by
  refine ⟨postUpstream_contentType base req, fun ct h hne => ?_, fun h => ?_⟩
  · rw [postUpstream_contentType base req, h]
    simp [jsOr, hne]
  · rw [postUpstream_contentType base req, h]
    rfl

/-- Witness for claim C5 as amended, at a concrete inbound request with a
non-empty Content-Type header. -/
theorem claim_c5_amended_witness :
    headersGet (postUpstream "http://b"
        ⟨["a"], "", [("Content-Type", "text/plain")], ""⟩).headers "Content-Type"
      = some "text/plain" :=
  (claim_c5_amended "http://b" ⟨["a"], "", [("Content-Type", "text/plain")], ""⟩).2.1
    "text/plain" (by decide) (by decide)

/-- Counterexample to claim C6: an inbound POST request with Content-Type
text/plain whose upstream response declares Content-Type application/xml;
the relayed response declares application/xml, taken from the upstream
response, not from the inbound request. -/
theorem claim_c6_counterexample :
    headersGet (POST (m := Id)
        (fun _ => ⟨200, [("Content-Type", "application/xml")], "b"⟩)
        "http://b" ⟨["a"], "", [("Content-Type", "text/plain")], "x"⟩).headers
        "Content-Type" = some "application/xml" ∧
    ("application/xml" : String) ≠ "text/plain" := by
  decide

/-- Claim C6 as amended: for POST the Content-Type of the relayed response
mirrors the upstream response (default application/json), exactly as in
the GET case; the inbound Content-Type affects only the outbound upstream
request. -/
theorem claim_c6_amended (base : String) (req : InboundRequest)
    (r : UpstreamResponse) :
    (POST (m := Id) (fun _ => r) base req).headers
      = [("Content-Type",
          jsOr (headersGet r.headers "Content-Type") "application/json")] ∧
    (POST (m := Id) (fun _ => r) base req).headers
      = (GET (m := Id) (fun _ => r) base req).headers :=
  ⟨rfl, rfl⟩

/-- Claim C7: when the upstream response carries no Content-Type header,
the response relayed by either handler declares Content-Type
application/json. -/
theorem claim_c7_default_content_type (base : String) (req : InboundRequest)
    (r : UpstreamResponse) (h : headersGet r.headers "Content-Type" = none) :
    headersGet (GET (m := Id) (fun _ => r) base req).headers "Content-Type"
      = some "application/json" ∧
    headersGet (POST (m := Id) (fun _ => r) base req).headers "Content-Type"
      = some "application/json" := by
  constructor
  · exact (relayResponse_contentType r).trans (by rw [h]; rfl)
  · exact (relayResponse_contentType r).trans (by rw [h]; rfl)

/-- Witness for claim C7 at a concrete upstream response with no headers. -/
theorem claim_c7_witness :
    headersGet (GET (m := Id) (fun _ => ⟨204, [], ""⟩)
        "http://b" ⟨["a"], "", [], ""⟩).headers "Content-Type"
      = some "application/json" ∧
    headersGet (POST (m := Id) (fun _ => ⟨204, [], ""⟩)
        "http://b" ⟨["a"], "", [], ""⟩).headers "Content-Type"
      = some "application/json" :=
  claim_c7_default_content_type "http://b" ⟨["a"], "", [], ""⟩ ⟨204, [], ""⟩ rfl

/-- Claim C8: when the upstream fetch fails with an error, both handlers
return exactly that error, untransformed, with no response of their own. -/
theorem claim_c8_error_propagation {ε : Type} (e : ε) (base : String)
    (req : InboundRequest) :
    GET (fun _ => Except.error e) base req = Except.error e ∧
    POST (fun _ => Except.error e) base req = Except.error e :=
  ⟨rfl, rfl⟩

/-- Claim C9: the base url is a fixed function of the startup environment
value alone, equal to http://localhost:8000 when the variable is unset,
and every upstream request of either handler is addressed under that one
base value. -/
theorem claim_c9_backend_config :
    BACKEND none = "http://localhost:8000" ∧
    (∀ (env : Option String) (req : InboundRequest),
      (getUpstream (BACKEND env) req).url = targetUrl (BACKEND env) req ∧
      (postUpstream (BACKEND env) req).url = targetUrl (BACKEND env) req) :=
  ⟨rfl, fun _ _ => ⟨rfl, rfl⟩⟩

/-- Claim C10: the relayed response of either handler carries exactly one
header, Content-Type; in particular an upstream Set-Cookie header does
not appear on the relayed response. -/
theorem claim_c10_single_header (base : String) (req : InboundRequest)
    (r : UpstreamResponse) :
    (GET (m := Id) (fun _ => r) base req).headers.map Prod.fst
      = ["Content-Type"] ∧
    (POST (m := Id) (fun _ => r) base req).headers.map Prod.fst
      = ["Content-Type"] ∧
    headersGet (GET (m := Id)
        (fun _ => ⟨200, [("Content-Type", "text/html"), ("Set-Cookie", "sid=1")], "b"⟩)
        "http://b" ⟨["a"], "", [], ""⟩).headers "Set-Cookie" = none :=
  ⟨rfl, rfl, by decide⟩
